import Mathlib

/-!
Verification of the video-quality comparison tool (compare-video.py).

The program is a thin orchestration pipeline: resolve a reference video
(optionally by downloading it from YouTube via an external downloader),
check both input files exist, run an external metrics engine
(ffmpeg-quality-metrics) capturing its JSON standard output, and print a
human-readable report, including a fixed-threshold quality tier for the
VMAF mean score.

We embed the program shallowly:
* parsed JSON documents are the inductive type `JSON`, with Python
  truthiness as `truthy`;
* the reporter (`display_results` and its per-metric pieces) returns
  `Except String (List String)`: `.ok lines` is the list of strings the
  Python code passes to `print`, `.error e` marks an uncaught Python
  exception (AttributeError / TypeError / ValueError);
* numeric values are exact rationals; the binary64 value `json.loads`
  stores for a decimal literal is `nearestFloat64` (round to nearest,
  ties to even), and Python `f"{x:.2f}"` formatting is embedded as
  `formatFixed`, the correctly rounded (ties to even) fixed-point
  rendering of the stored value;
* the subprocess runner `run_video_comparison` is a function of the
  engine process result plus an ambient JSON parser;
* `main` is modelled as a function from command-line arguments and an
  environment (`World`) to the trace of external events (downloader
  calls, existence checks, engine calls) plus the final outcome.
-/

/-- Decidable equality for `Except`, so that witnesses can be settled by
`decide`. -/
instance {ε α : Type} [DecidableEq ε] [DecidableEq α] : DecidableEq (Except ε α) :=
  fun x y =>
    match x, y with
    | .ok a, .ok b =>
        match decEq a b with
        | isTrue h => isTrue (by rw [h])
        | isFalse h => isFalse (fun hh => h (Except.ok.inj hh))
    | .ok _, .error _ => isFalse (fun hh => Except.noConfusion hh)
    | .error _, .ok _ => isFalse (fun hh => Except.noConfusion hh)
    | .error e, .error f =>
        match decEq e f with
        | isTrue h => isTrue (by rw [h])
        | isFalse h => isFalse (fun hh => h (Except.error.inj hh))

/-- A parsed JSON document (the shape `json.loads` produces). -/
inductive JSON where
  | null : JSON
  | bool (b : Bool) : JSON
  | num (q : ℚ) : JSON
  | str (s : String) : JSON
  | arr (xs : List JSON) : JSON
  | obj (kvs : List (String × JSON)) : JSON
deriving Repr

/-- Python truthiness of a parsed JSON value (`if value:`): `None`, `False`,
`0`, `""`, `[]` and `{}` are falsy, everything else truthy. -/
def truthy : JSON → Bool
  | .null => false
  | .bool b => b
  | .num q => q != 0
  | .str s => s != ""
  | .arr xs => !xs.isEmpty
  | .obj kvs => !kvs.isEmpty

/-- Dictionary lookup on a parsed JSON object (`d[k]` / `k in d`); keys of a
Python dict are unique, so the first match is the match. -/
def jLookup (kvs : List (String × JSON)) (k : String) : Option JSON :=
  (kvs.find? (fun p => p.1 == k)).map Prod.snd

/-- The numeric reading a Python float format spec accepts: numbers and
booleans (bool is an int subclass); every other value raises TypeError. -/
def jToQ : JSON → Option ℚ
  | .num q => some q
  | .bool b => some (if b then 1 else 0)
  | _ => none

/-- Round q * 10 ^ prec to the nearest integer, ties to even — the correct
rounding CPython's float formatting performs on the stored value — computed
on the numerator and denominator so that the kernel can evaluate it. -/
def scaleRound (prec : Nat) (q : ℚ) : ℤ :=
  let n : ℤ := q.num * Int.ofNat (10 ^ prec)
  let d : ℤ := Int.ofNat q.den
  let f : ℤ := n.fdiv d
  let r : ℤ := n - f * d
  if 2 * r < d then f
  else if d < 2 * r then f + 1
  else if f % 2 = 0 then f else f + 1

/-- Floor of log2 on positive naturals, written with explicit fuel so the
kernel can evaluate it (any fuel at least the number of halvings works;
`n` itself does). -/
def log2Fuel : Nat → Nat → Nat
  | 0, _ => 0
  | fuel + 1, n => if 2 ≤ n then log2Fuel fuel (n / 2) + 1 else 0

/-- Floor of log2 of a positive natural. -/
def natLog2 (n : Nat) : Nat := log2Fuel n n

/-- Round n / d to the nearest natural, ties to even (d > 0). -/
def rheDiv (n d : Nat) : Nat :=
  let f := n / d
  let r := n % d
  if 2 * r < d then f
  else if d < 2 * r then f + 1
  else if f % 2 = 0 then f else f + 1

/-- The round-to-nearest-even integer value of a / d / 2 ^ e. -/
def mantissaAt (a d : Nat) (e : ℤ) : Nat :=
  if 0 ≤ e then rheDiv a (d * 2 ^ e.toNat)
  else rheDiv (a * 2 ^ (-e).toNat) d

/-- The IEEE-754 binary64 value nearest to q (ties to even), as an exact
rational: the number Python's `json.loads` actually stores for a decimal
literal in the engine's output. Covers the normal range (no subnormal or
overflow handling); every value this program meets lies far inside it. -/
def nearestFloat64 (q : ℚ) : ℚ :=
  if q = 0 then 0
  else
    let a := q.num.natAbs
    let d := q.den
    let dl : ℤ := (natLog2 a : ℤ) - (natLog2 d : ℤ)
    let ge : Bool := if 0 ≤ dl then d * 2 ^ dl.toNat ≤ a else d ≤ a * 2 ^ (-dl).toNat
    let t : ℤ := if ge then dl else dl - 1
    let e : ℤ := t - 52
    let m : Nat := mantissaAt a d e
    let sgn : ℤ := if q.num < 0 then -1 else 1
    if 0 ≤ e then mkRat (sgn * Int.ofNat (m * 2 ^ e.toNat)) 1
    else mkRat (sgn * Int.ofNat m) (2 ^ (-e).toNat)

/-- Embedding of Python fixed-point formatting `f"{q:.prec f}"` on exact
rationals. -/
def formatFixed (prec : Nat) (q : ℚ) : String :=
  let n : ℤ := scaleRound prec q
  let a : ℕ := n.natAbs
  let sign : String := if n < 0 then "-" else ""
  let ip : ℕ := a / 10 ^ prec
  let fp : ℕ := a % 10 ^ prec
  let fpStr : String := toString fp
  let pad : String := String.mk (List.replicate (prec - fpStr.length) '0')
  if prec = 0 then sign ++ toString ip
  else sign ++ toString ip ++ "." ++ pad ++ fpStr

/-- Python `str.upper()` on the metric names this program meets (ASCII),
written over the character list so the kernel can evaluate it. -/
def upperStr (s : String) : String :=
  String.mk (s.data.map Char.toUpper)

/-- The chained conditional classifying a VMAF mean score into a tier
(compare-video.py lines 81-84). -/
def quality_tier (v : ℚ) : String :=
  if v < 20 then "Bad"
  else if v < 40 then "Poor"
  else if v < 60 then "Fair"
  else if v < 80 then "Good"
  else "Excellent"

/-- The five fixed interpretation-legend prints (lines 74-79); the leading
newline of the first `print` is kept inside the string. -/
def vmafLegend : List String :=
  ["\n=== VMAF SCORE INTERPRETATION ===",
   "0-20:   Bad quality",
   "20-40:  Poor quality",
   "40-60:  Fair quality",
   "60-80:  Good quality",
   "80-100: Excellent quality"]

/-- Lines 69-85: `vmaf_score = data.get('mean', None)`, then under
`if vmaf_score:` print the score, the legend and the tier. A truthy
non-numeric score raises TypeError at the format spec. -/
def meanPart (kvs : List (String × JSON)) : Except String (List String) :=
  let score : JSON := (jLookup kvs "mean").getD .null
  if truthy score then
    match jToQ score with
    | some q =>
        .ok (("VMAF Score: " ++ formatFixed 2 q ++ " / 100.0") ::
          vmafLegend ++
          ["\nThis video's quality is rated as: " ++ quality_tier q])
    | none => .error "TypeError: unsupported format string"
  else .ok []

/-- Line 91-92 inner expression `frame.get('metrics', {}).get('vmaf', 0)`:
a frame that is not a dict raises AttributeError; a missing or absent
vmaf value contributes 0; a non-numeric vmaf value makes min/max or the
format raise. -/
def frameScore (frame : JSON) : Except String ℚ :=
  match frame with
  | .obj fkvs =>
      match (jLookup fkvs "metrics").getD (.obj []) with
      | .obj mkvs =>
          match jToQ ((jLookup mkvs "vmaf").getD (.num 0)) with
          | some q => .ok q
          | none => .error "TypeError: comparison or format on non-number"
      | _ => .error "AttributeError: get on non-dict metrics"
  | _ => .error "AttributeError: get on non-dict frame"

/-- Lines 88-92: `if 'frames' in data and data['frames']:` then print the
frame count and the min and max per-frame VMAF values. -/
def framesDetails (kvs : List (String × JSON)) : Except String (List String) :=
  match jLookup kvs "frames" with
  | some fv =>
      if truthy fv then
        match fv with
        | .arr fs =>
            match fs.mapM frameScore with
            | .ok qs =>
                match qs with
                | [] => .error "ValueError: min of empty sequence"
                | q :: rest =>
                    .ok ["\n=== Frame-by-Frame Details ===",
                         "Analyzed " ++ toString fs.length ++ " frames",
                         "Min VMAF: " ++ formatFixed 2 (rest.foldl min q),
                         "Max VMAF: " ++ formatFixed 2 (rest.foldl max q)]
            | .error e => .error e
        | _ => .error "TypeError: iteration over non-list frames"
      else .ok []
  | none => .ok []

/-- Lines 67-92, the `metric == "vmaf"` branch: `data.get` requires a dict;
then the mean block and the frame-details block in order. -/
def displayVmaf (data : JSON) : Except String (List String) :=
  match data with
  | .obj kvs =>
      match meanPart kvs with
      | .ok l1 =>
          match framesDetails kvs with
          | .ok l2 => .ok (l1 ++ l2)
          | .error e => .error e
      | .error e => .error e
  | _ => .error "AttributeError: get on non-dict data"

/-- One line of the psnr/ssim loop body (line 98): `:.4f` on a non-number
raises TypeError. -/
def componentLine (metric : String) (p : String × JSON) : Except String String :=
  match jToQ p.2 with
  | some q => .ok (upperStr metric ++ " " ++ p.1 ++ ": " ++ formatFixed 4 q)
  | none => .error "TypeError: unsupported format string"

/-- Lines 94-98: iterate `data.items()`, skip the 'frames' key, print each
remaining component to four decimal places. -/
def displayComponents (metric : String) (data : JSON) : Except String (List String) :=
  match data with
  | .obj kvs => (kvs.filter (fun p => p.1 != "frames")).mapM (componentLine metric)
  | _ => .error "AttributeError: items on non-dict data"

/-- ASCII spaces for indentation. -/
def spaces (n : Nat) : String := String.mk (List.replicate n ' ')

/-- One escaped character of a JSON string literal, as `json.dumps` emits it
(other control characters idealised as themselves). -/
def quoteChar (c : Char) : String :=
  if c = '"' then "\\\""
  else if c = '\\' then "\\\\"
  else if c = '\n' then "\\n"
  else if c = '\t' then "\\t"
  else if c = '\r' then "\\r"
  else String.mk [c]

/-- A JSON string literal with quotes and escapes. -/
def quoteStr (s : String) : String :=
  "\"" ++ String.join (s.data.map quoteChar) ++ "\""

mutual

/-- `json.dumps(v, indent=2)` rendered with the container's current indent
`ind`; integers print without a decimal point, non-integer rationals are
idealised as `num/den`. -/
def dumpsAt : Nat → JSON → String
  | _, .null => "null"
  | _, .bool true => "true"
  | _, .bool false => "false"
  | _, .num q => if q.den = 1 then toString q.num else toString q
  | _, .str s => quoteStr s
  | _, .arr [] => "[]"
  | ind, .arr (x :: xs) =>
      "[\n" ++ dumpsItems (ind + 2) (x :: xs) ++ "\n" ++ spaces ind ++ "]"
  | _, .obj [] => "\x7b\x7d"
  | ind, .obj (p :: ps) =>
      "\x7b\n" ++ dumpsPairs (ind + 2) (p :: ps) ++ "\n" ++ spaces ind ++ "\x7d"

/-- Array elements, one per line, comma separated. -/
def dumpsItems : Nat → List JSON → String
  | _, [] => ""
  | ind, [x] => spaces ind ++ dumpsAt ind x
  | ind, x :: y :: xs =>
      spaces ind ++ dumpsAt ind x ++ ",\n" ++ dumpsItems ind (y :: xs)

/-- Object members, one per line, comma separated. -/
def dumpsPairs : Nat → List (String × JSON) → String
  | _, [] => ""
  | ind, [p] => spaces ind ++ quoteStr p.1 ++ ": " ++ dumpsAt ind p.2
  | ind, p :: q :: ps =>
      spaces ind ++ quoteStr p.1 ++ ": " ++ dumpsAt ind p.2 ++ ",\n" ++
        dumpsPairs ind (q :: ps)

end

/-- Lines 64-104, one iteration of the metric loop: the metric header, the
branch on the metric name, and the trailing empty `print("")`. -/
def displayMetric (metric : String) (data : JSON) : Except String (List String) :=
  let body : Except String (List String) :=
    if metric = "vmaf" then displayVmaf data
    else if metric = "psnr" ∨ metric = "ssim" then displayComponents metric data
    else .ok [dumpsAt 0 data]
  match body with
  | .ok ls => .ok (("=== " ++ upperStr metric ++ " Results ===") :: ls ++ [""])
  | .error e => .error e

/-- Lines 60-104, `display_results`: the banner, then every metric block in
document order; `results.items()` requires a dict. -/
def display_results (results : JSON) : Except String (List String) :=
  match results with
  | .obj kvs =>
      match kvs.mapM (fun p => displayMetric p.1 p.2) with
      | .ok blocks => .ok ("\n=== VIDEO QUALITY ASSESSMENT RESULTS ===\n" :: blocks.flatten)
      | .error e => .error e
  | _ => .error "AttributeError: items on non-dict results"

/-- The captured result of a finished subprocess (`subprocess.run` with
`capture_output=True`): exit code, standard output, standard error. -/
structure ProcResult where
  exitCode : Nat
  stdout : String
  stderr : String

/-- What `run_video_comparison` does after the engine process finishes:
either the parsed JSON document, or `sys.exit(code)` after printing the
listed diagnostics. -/
inductive RunOutcome where
  | ok (results : JSON)
  | exited (code : Nat) (diagnostics : List String)

/-- Lines 49-58: with `check=True`, a non-zero exit raises
CalledProcessError, handled by printing the error and the captured stderr
and exiting 1; on zero exit the stdout is given to `json.loads` (modelled
by the ambient parser `parse`), and a parse failure prints the raw output
and exits 1. Each failure is terminal: the function is evaluated once and
never retries. -/
def run_video_comparison (parse : String → Option JSON) (r : ProcResult) :
    RunOutcome :=
  if r.exitCode = 0 then
    match parse r.stdout with
    | some j => .ok j
    | none => .exited 1 ["Error parsing output. Raw output: " ++ r.stdout]
  else
    .exited 1 ["Error running ffmpeg-quality-metrics: CalledProcessError",
               "Command output: " ++ r.stderr]

/-- The mutually exclusive required group of line 110-112: exactly one of
`--reference` and `--youtube` is present (argparse enforces this before
`main`'s body runs). -/
inductive Source where
  | localRef (path : String)
  | youtube (url : String)

/-- The parsed command line (lines 107-123). -/
structure Args where
  source : Source
  distorted : String
  youtubeOutput : Option String
  metrics : List String

/-- An external side effect of one run: a downloader subprocess call, an
`os.path.exists` check, or a metrics-engine subprocess call. -/
inductive Event where
  | downloadCall (url outputPath : String)
  | existCheck (path : String)
  | engineCall (reference distorted : String) (metrics : List String)

/-- How the downloader subprocess behaves in this run: exits zero, exits
non-zero (CalledProcessError), or the executable is missing
(FileNotFoundError). -/
inductive DownloadBehavior where
  | succeeds
  | processError
  | notFound

/-- The environment a run observes: the temp directory, which paths exist,
how the downloader behaves, and the metrics-engine process result together
with the ambient JSON parser. -/
structure World where
  tempDir : String
  pathExists : String → Bool
  download : DownloadBehavior
  engine : ProcResult
  parse : String → Option JSON

/-- How the process ends: `sys.exit(code)`, or the report of
`display_results`. -/
inductive MainOutcome where
  | exited (code : Nat)
  | reported (report : Except String (List String))

/-- Lines 15-34, `download_youtube_video`: the destination defaults to
`youtube_download.mp4` in the temp directory; exactly one downloader
subprocess call is made; on CalledProcessError or FileNotFoundError the
program exits 1, otherwise the destination path is returned (without
re-checking that the file materialised). -/
def download_youtube_video (w : World) (url : String)
    (outputPath : Option String) : List Event × Except Nat String :=
  let out := outputPath.getD (w.tempDir ++ "/youtube_download.mp4")
  ([Event.downloadCall url out],
   match w.download with
   | .succeeds => Except.ok out
   | .processError => Except.error 1
   | .notFound => Except.error 1)

/-- Lines 126-130: a local `--reference` path passes through untouched with
no side effect; `--youtube` calls the downloader. -/
def resolveReference (w : World) (a : Args) : List Event × Except Nat String :=
  match a.source with
  | .localRef p => ([], Except.ok p)
  | .youtube url => download_youtube_video w url a.youtubeOutput

/-- Lines 133-136: check each path in order; the first missing one exits
the process with code 1. -/
def existLoop (w : World) : List String → List Event × Bool
  | [] => ([], true)
  | p :: rest =>
      if w.pathExists p then
        let r := existLoop w rest
        (Event.existCheck p :: r.1, r.2)
      else ([Event.existCheck p], false)

/-- Lines 106-142, `main` after argument parsing: resolve the reference
(possibly downloading), validate both paths, call the metrics engine, and
display the results. The first component is the trace of external events in
the order they happen. -/
def mainRun (w : World) (a : Args) : List Event × MainOutcome :=
  match resolveReference w a with
  | (evs1, .error c) => (evs1, .exited c)
  | (evs1, .ok ref) =>
      match existLoop w [ref, a.distorted] with
      | (evs2, false) => (evs1 ++ evs2, .exited 1)
      | (evs2, true) =>
          match run_video_comparison w.parse w.engine with
          | .ok j =>
              (evs1 ++ evs2 ++ [Event.engineCall ref a.distorted a.metrics],
               .reported (display_results j))
          | .exited c _ =>
              (evs1 ++ evs2 ++ [Event.engineCall ref a.distorted a.metrics],
               .exited c)

/-- Is this event a downloader subprocess call? -/
def Event.isDownload : Event → Bool
  | .downloadCall _ _ => true
  | _ => false

/-- Is this event a metrics-engine subprocess call? -/
def Event.isEngine : Event → Bool
  | .engineCall _ _ _ => true
  | _ => false

/-- The well-formed VMAF result of the spec's example:
mean 92.5 with two frames scoring 90 and 95. -/
def exampleVmaf : JSON := JSON.obj [("mean", JSON.num (mkRat 185 2)),
  ("frames", JSON.arr [JSON.obj [("metrics", JSON.obj [("vmaf", JSON.num 90)])],
                       JSON.obj [("metrics", JSON.obj [("vmaf", JSON.num 95)])]])]

/-- The tier conditional always lands in exactly one of the five bands. -/
lemma quality_tier_cases (v : ℚ) :
    quality_tier v = "Bad" ∧ v < 20 ∨
    quality_tier v = "Poor" ∧ 20 ≤ v ∧ v < 40 ∨
    quality_tier v = "Fair" ∧ 40 ≤ v ∧ v < 60 ∨
    quality_tier v = "Good" ∧ 60 ≤ v ∧ v < 80 ∨
    quality_tier v = "Excellent" ∧ 80 ≤ v := by
  unfold quality_tier
  split_ifs with h1 h2 h3 h4
  · exact Or.inl ⟨rfl, h1⟩
  · exact Or.inr (Or.inl ⟨rfl, le_of_not_lt h1, h2⟩)
  · exact Or.inr (Or.inr (Or.inl ⟨rfl, le_of_not_lt h2, h3⟩))
  · exact Or.inr (Or.inr (Or.inr (Or.inl ⟨rfl, le_of_not_lt h3, h4⟩)))
  · exact Or.inr (Or.inr (Or.inr (Or.inr ⟨rfl, le_of_not_lt h4⟩)))

/-- C1: on the VMAF score range [0, 100] the tier classification assigns
exactly the five half-open bands — Bad on [0,20), Poor on [20,40), Fair on
[40,60), Good on [60,80), Excellent on [80,100] — and each boundary value
20, 40, 60, 80 maps to the higher tier. -/
theorem C1_tier_partition (v : ℚ) (h0 : 0 ≤ v) (h100 : v ≤ 100) :
    (quality_tier v = "Bad" ↔ 0 ≤ v ∧ v < 20) ∧
    (quality_tier v = "Poor" ↔ 20 ≤ v ∧ v < 40) ∧
    (quality_tier v = "Fair" ↔ 40 ≤ v ∧ v < 60) ∧
    (quality_tier v = "Good" ↔ 60 ≤ v ∧ v < 80) ∧
    (quality_tier v = "Excellent" ↔ 80 ≤ v ∧ v ≤ 100) ∧
    quality_tier 20 = "Poor" ∧ quality_tier 40 = "Fair" ∧
    quality_tier 60 = "Good" ∧ quality_tier 80 = "Excellent" := by
  rcases quality_tier_cases v with
      ⟨he, hr⟩ | ⟨he, hl, hr⟩ | ⟨he, hl, hr⟩ | ⟨he, hl, hr⟩ | ⟨he, hl⟩ <;>
    rw [he] <;>
    refine ⟨?_, ?_, ?_, ?_, ?_, by decide, by decide, by decide, by decide⟩ <;>
    constructor <;> intro h <;>
    first
      | exact ⟨by linarith, by linarith⟩
      | rfl
      | exact absurd h (by decide)
      | (exfalso; linarith [h.1, h.2])

/-- Witness for C1 at the concrete score 50. -/
theorem C1_tier_partition_witness :
    (quality_tier 50 = "Bad" ↔ (0 : ℚ) ≤ 50 ∧ (50 : ℚ) < 20) ∧
    (quality_tier 50 = "Poor" ↔ (20 : ℚ) ≤ 50 ∧ (50 : ℚ) < 40) ∧
    (quality_tier 50 = "Fair" ↔ (40 : ℚ) ≤ 50 ∧ (50 : ℚ) < 60) ∧
    (quality_tier 50 = "Good" ↔ (60 : ℚ) ≤ 50 ∧ (50 : ℚ) < 80) ∧
    (quality_tier 50 = "Excellent" ↔ (80 : ℚ) ≤ 50 ∧ (50 : ℚ) ≤ 100) ∧
    quality_tier 20 = "Poor" ∧ quality_tier 40 = "Fair" ∧
    quality_tier 60 = "Good" ∧ quality_tier 80 = "Excellent" :=
  C1_tier_partition 50 (by norm_num) (by norm_num)

/-- The mean block printed when the mean is a nonzero number. -/
lemma meanPart_of_num (kvs : List (String × JSON)) (q : ℚ)
    (hm : jLookup kvs "mean" = some (JSON.num q)) (hq : q ≠ 0) :
    meanPart kvs = Except.ok (("VMAF Score: " ++ formatFixed 2 q ++ " / 100.0") ::
      vmafLegend ++ ["\nThis video's quality is rated as: " ++ quality_tier q]) := by
  unfold meanPart
  rw [hm]
  simp only [Option.getD_some, truthy, jToQ]
  rw [if_pos (by simpa using hq)]

/-- C2 (amended): for a vmaf result whose 'mean' is a nonzero number q, the
reporter prints the mean to two decimals, the five-band legend, and the
tier of the boundary rule; in particular, on the spec's example it prints
"VMAF Score: 92.50 / 100.0" and tier "Excellent". (The amendment — the
mean must be nonzero, not merely present — is forced by the truthiness
presence check shown false at mean = 0 in `C2_zero_mean_cex`.) -/
theorem C2_vmaf_report (kvs : List (String × JSON)) (q : ℚ) (l2 : List String)
    (hm : jLookup kvs "mean" = some (JSON.num q)) (hq : q ≠ 0)
    (hf : framesDetails kvs = Except.ok l2) :
    displayMetric "vmaf" (JSON.obj kvs) =
      Except.ok ("=== VMAF Results ===" ::
        (("VMAF Score: " ++ formatFixed 2 q ++ " / 100.0") ::
          vmafLegend ++ ["\nThis video's quality is rated as: " ++ quality_tier q] ++ l2) ++
        [""]) ∧
    displayMetric "vmaf" exampleVmaf = Except.ok ["=== VMAF Results ===",
      "VMAF Score: 92.50 / 100.0", "\n=== VMAF SCORE INTERPRETATION ===",
      "0-20:   Bad quality", "20-40:  Poor quality", "40-60:  Fair quality",
      "60-80:  Good quality", "80-100: Excellent quality",
      "\nThis video's quality is rated as: Excellent",
      "\n=== Frame-by-Frame Details ===", "Analyzed 2 frames",
      "Min VMAF: 90.00", "Max VMAF: 95.00", ""] := by
  constructor
  · simp [displayMetric, displayVmaf, meanPart_of_num kvs q hm hq, hf]
    decide
  · decide

/-- Counterexample to C2 as stated: the entry {"mean": 0} does contain a
mean score, yet the reporter prints only the metric header — no score
line, no legend, no tier. -/
theorem C2_zero_mean_cex :
    jLookup [("mean", JSON.num 0)] "mean" = some (JSON.num 0) ∧
    displayMetric "vmaf" (JSON.obj [("mean", JSON.num 0)]) =
      Except.ok ["=== VMAF Results ===", ""] ∧
    "VMAF Score: 0.00 / 100.0" ∉ (["=== VMAF Results ===", ""] : List String) ∧
    "\n=== VMAF SCORE INTERPRETATION ===" ∉
      (["=== VMAF Results ===", ""] : List String) ∧
    ("\nThis video's quality is rated as: " ++ quality_tier 0) ∉
      (["=== VMAF Results ===", ""] : List String) := by
  refine ⟨rfl, by decide, by decide, by decide, by decide⟩

/-- Witness for C2 at the spec's example input. -/
theorem C2_vmaf_report_witness :
    displayMetric "vmaf" exampleVmaf = Except.ok ["=== VMAF Results ===",
      "VMAF Score: 92.50 / 100.0", "\n=== VMAF SCORE INTERPRETATION ===",
      "0-20:   Bad quality", "20-40:  Poor quality", "40-60:  Fair quality",
      "60-80:  Good quality", "80-100: Excellent quality",
      "\nThis video's quality is rated as: Excellent",
      "\n=== Frame-by-Frame Details ===", "Analyzed 2 frames",
      "Min VMAF: 90.00", "Max VMAF: 95.00", ""] :=
  (C2_vmaf_report
    [("mean", JSON.num (mkRat 185 2)),
     ("frames", JSON.arr [JSON.obj [("metrics", JSON.obj [("vmaf", JSON.num 90)])],
                          JSON.obj [("metrics", JSON.obj [("vmaf", JSON.num 95)])]])]
    (mkRat 185 2)
    ["\n=== Frame-by-Frame Details ===", "Analyzed 2 frames",
     "Min VMAF: 90.00", "Max VMAF: 95.00"]
    rfl (by decide) (by decide)).2

/-- C3: a 'mean' key carrying exactly 0 is falsy, so the reporter skips the
score line, the legend and the tier: only the header (and any frame
details) remain. -/
theorem C3_zero_mean_suppressed (kvs : List (String × JSON)) (l2 : List String)
    (hm : jLookup kvs "mean" = some (JSON.num 0))
    (hf : framesDetails kvs = Except.ok l2) :
    meanPart kvs = Except.ok [] ∧
    displayMetric "vmaf" (JSON.obj kvs) =
      Except.ok ("=== VMAF Results ===" :: l2 ++ [""]) := by
  have h1 : meanPart kvs = Except.ok [] := by
    unfold meanPart
    rw [hm]
    simp [truthy]
  refine ⟨h1, ?_⟩
  simp [displayMetric, displayVmaf, h1, hf]
  decide

/-- Witness for C3 at the concrete input {"mean": 0}. -/
theorem C3_zero_mean_suppressed_witness :
    meanPart [("mean", JSON.num 0)] = Except.ok [] ∧
    displayMetric "vmaf" (JSON.obj [("mean", JSON.num 0)]) =
      Except.ok ("=== VMAF Results ===" :: [] ++ [""]) :=
  C3_zero_mean_suppressed [("mean", JSON.num 0)] [] rfl rfl

/-- C4: when 'frames' holds a non-empty list whose per-frame extraction
succeeds, the reporter prints the frame count and the min and max of the
extracted values; a frame whose metrics lack a vmaf value (or that has no
metrics at all) contributes 0; when 'frames' is absent or the list is
empty, no frame details are printed. -/
theorem C4_frame_details :
    (∀ kvs fs q rest, jLookup kvs "frames" = some (JSON.arr fs) →
        fs.mapM frameScore = Except.ok (q :: rest) →
        framesDetails kvs = Except.ok
          ["\n=== Frame-by-Frame Details ===",
           "Analyzed " ++ toString fs.length ++ " frames",
           "Min VMAF: " ++ formatFixed 2 (rest.foldl min q),
           "Max VMAF: " ++ formatFixed 2 (rest.foldl max q)]) ∧
    (∀ kvs, jLookup kvs "frames" = none → framesDetails kvs = Except.ok []) ∧
    (∀ kvs, jLookup kvs "frames" = some (JSON.arr []) →
        framesDetails kvs = Except.ok []) ∧
    (∀ fkvs mkvs, jLookup fkvs "metrics" = some (JSON.obj mkvs) →
        jLookup mkvs "vmaf" = none → frameScore (JSON.obj fkvs) = Except.ok 0) ∧
    (∀ fkvs, jLookup fkvs "metrics" = none →
        frameScore (JSON.obj fkvs) = Except.ok 0) := by
  refine ⟨?_, ?_, ?_, ?_, ?_⟩
  · intro kvs fs q rest hl hmap
    unfold framesDetails
    rw [hl]
    cases fs with
    | nil => exact List.noConfusion (Except.ok.inj hmap)
    | cons a t =>
        have hmap2 : List.mapM.loop frameScore (a :: t) [] =
            Except.ok (q :: rest) := hmap
        simp [truthy, hmap2]
  · intro kvs h
    unfold framesDetails
    rw [h]
  · intro kvs h
    unfold framesDetails
    rw [h]
    simp [truthy]
  · intro fkvs mkvs hm hv
    simp [frameScore, hm, hv, jToQ]
  · intro fkvs h
    simp only [frameScore, h, Option.getD_none]
    rfl

/-- Witness for C4 at the spec's two-frame example. -/
theorem C4_frame_details_witness :
    framesDetails [("frames",
        JSON.arr [JSON.obj [("metrics", JSON.obj [("vmaf", JSON.num 90)])],
                  JSON.obj [("metrics", JSON.obj [("vmaf", JSON.num 95)])]])] =
      Except.ok
        ["\n=== Frame-by-Frame Details ===",
         "Analyzed " ++ toString
            ([JSON.obj [("metrics", JSON.obj [("vmaf", JSON.num 90)])],
              JSON.obj [("metrics", JSON.obj [("vmaf", JSON.num 95)])]].length) ++
           " frames",
         "Min VMAF: " ++ formatFixed 2 ([(95 : ℚ)].foldl min 90),
         "Max VMAF: " ++ formatFixed 2 ([(95 : ℚ)].foldl max 90)] :=
  C4_frame_details.1
    [("frames",
        JSON.arr [JSON.obj [("metrics", JSON.obj [("vmaf", JSON.num 90)])],
                  JSON.obj [("metrics", JSON.obj [("vmaf", JSON.num 95)])]])]
    [JSON.obj [("metrics", JSON.obj [("vmaf", JSON.num 90)])],
     JSON.obj [("metrics", JSON.obj [("vmaf", JSON.num 95)])]]
    90 [95] rfl (by decide)

/-- Monadic bind on an `Except.ok` just applies the continuation. -/
lemma except_bind_ok {E A B : Type} (a : A) (f : A → Except E B) :
    (Except.ok a >>= f) = f a := rfl

/-- The psnr/ssim loop over components with numeric values produces one
formatted line per component. -/
lemma mapM_componentLine (metric : String) (l : List (String × JSON))
    (h : ∀ p ∈ l, (jToQ p.2).isSome) :
    l.mapM (componentLine metric) = Except.ok (l.map
      (fun p => upperStr metric ++ " " ++ p.1 ++ ": " ++
        formatFixed 4 ((jToQ p.2).getD 0))) := by
  induction l with
  | nil => rfl
  | cons a t ih =>
      obtain ⟨qa, hqa⟩ := Option.isSome_iff_exists.mp (h a (by simp))
      have ht := ih (fun p hp => h p (by simp [hp]))
      rw [List.mapM_cons, ht]
      simp [componentLine, hqa, except_bind_ok, List.map]

/-- Counterexample to C5's committed example: `json.loads` stores the
binary64 nearest to 45.12345, namely 6350561018927225 / 2 ^ 47 =
45.12344999999999828…, which formats at four decimals to "45.1234" — the
program never prints the claimed "45.1235". -/
theorem C5_float_format_cex :
    nearestFloat64 (mkRat 4512345 100000) = mkRat 6350561018927225 (2 ^ 47) ∧
    displayMetric "psnr"
        (JSON.obj [("psnr_avg",
          JSON.num (nearestFloat64 (mkRat 4512345 100000)))]) =
      Except.ok ["=== PSNR Results ===", "PSNR psnr_avg: 45.1234", ""] ∧
    "PSNR psnr_avg: 45.1235" ∉
      (["=== PSNR Results ===", "PSNR psnr_avg: 45.1234", ""] : List String) :=
  ⟨by decide, by decide, by decide⟩

/-- C5 (amended): for psnr or ssim the reporter prints exactly one
four-decimal line per key other than 'frames' — and nothing else, so no
quality tier is ever attached to these metrics; in particular
{"psnr_avg": 45.12345} prints "PSNR psnr_avg: 45.1234", formatting the
stored double 45.12344999999999828…. (The amendment replaces the claim's
"45.1235" by the program's actual "45.1234", forced by
`C5_float_format_cex`.) -/
theorem C5_component_report (metric : String) (kvs : List (String × JSON))
    (hmet : metric = "psnr" ∨ metric = "ssim")
    (hnum : ∀ p ∈ kvs, p.1 ≠ "frames" → (jToQ p.2).isSome) :
    displayMetric metric (JSON.obj kvs) =
      Except.ok (("=== " ++ upperStr metric ++ " Results ===") ::
        ((kvs.filter (fun p => p.1 != "frames")).map
          (fun p => upperStr metric ++ " " ++ p.1 ++ ": " ++
            formatFixed 4 ((jToQ p.2).getD 0))) ++ [""]) ∧
    displayMetric "psnr"
        (JSON.obj [("psnr_avg",
          JSON.num (nearestFloat64 (mkRat 4512345 100000)))]) =
      Except.ok ["=== PSNR Results ===", "PSNR psnr_avg: 45.1234", ""] := by
  constructor
  · have hnv : metric ≠ "vmaf" := by rcases hmet with h | h <;> subst h <;> decide
    have hall : ∀ p ∈ kvs.filter (fun p => p.1 != "frames"), (jToQ p.2).isSome := by
      intro p hp
      rw [List.mem_filter] at hp
      exact hnum p hp.1 (by simpa using hp.2)
    have h2 : List.mapM.loop (componentLine metric)
        (kvs.filter (fun p => p.1 != "frames")) [] =
        Except.ok ((kvs.filter (fun p => p.1 != "frames")).map
          (fun p => upperStr metric ++ " " ++ p.1 ++ ": " ++
            formatFixed 4 ((jToQ p.2).getD 0))) :=
      mapM_componentLine metric _ hall
    simp [displayMetric, if_neg hnv, if_pos hmet, displayComponents, h2]
  · decide

/-- Witness for C5 at the psnr example, with the value json.loads stores. -/
theorem C5_component_report_witness :
    displayMetric "psnr"
        (JSON.obj [("psnr_avg",
          JSON.num (nearestFloat64 (mkRat 4512345 100000)))]) =
      Except.ok ["=== PSNR Results ===", "PSNR psnr_avg: 45.1234", ""] :=
  (C5_component_report "psnr"
    [("psnr_avg", JSON.num (nearestFloat64 (mkRat 4512345 100000)))]
    (Or.inl rfl)
    (by
      intro p hp hne
      rw [List.mem_singleton] at hp
      subst hp
      decide)).2

/-- C6: for any metric name other than vmaf, psnr and ssim, and any JSON
sub-document whatsoever, the reporter never raises: it prints the header
and the 2-space-indented pretty-printed sub-document. -/
theorem C6_unknown_fallback (metric : String) (data : JSON)
    (h1 : metric ≠ "vmaf") (h2 : metric ≠ "psnr") (h3 : metric ≠ "ssim") :
    displayMetric metric data =
      Except.ok ["=== " ++ upperStr metric ++ " Results ===", dumpsAt 0 data, ""] := by
  unfold displayMetric
  rw [if_neg h1, if_neg (fun hor => hor.elim h2 h3)]
  rfl

/-- Witness for C6 at the spec's unknown-metric example {"foo": {"bar": 1}}. -/
theorem C6_unknown_fallback_witness :
    displayMetric "foo" (JSON.obj [("bar", JSON.num 1)]) =
      Except.ok ["=== FOO Results ===", "\x7b\n  \"bar\": 1\n\x7d", ""] := by
  have h := C6_unknown_fallback "foo" (JSON.obj [("bar", JSON.num 1)])
    (by decide) (by decide) (by decide)
  rw [h]
  simp only [dumpsAt, dumpsPairs]
  decide

/-- C7: the metrics runner returns the parsed document exactly on a zero
exit with parseable stdout; a non-zero exit exits 1 with the error and the
captured stderr; a zero exit with unparseable stdout exits 1 with the raw
output. The function consumes one process result and never re-runs it. -/
theorem C7_runner (parse : String → Option JSON) (r : ProcResult) :
    (∀ j, r.exitCode = 0 → parse r.stdout = some j →
        run_video_comparison parse r = RunOutcome.ok j) ∧
    (r.exitCode ≠ 0 →
        run_video_comparison parse r = RunOutcome.exited 1
          ["Error running ffmpeg-quality-metrics: CalledProcessError",
           "Command output: " ++ r.stderr]) ∧
    (r.exitCode = 0 → parse r.stdout = none →
        run_video_comparison parse r = RunOutcome.exited 1
          ["Error parsing output. Raw output: " ++ r.stdout]) := by
  refine ⟨?_, ?_, ?_⟩
  · intro j h0 hp
    unfold run_video_comparison
    rw [if_pos h0, hp]
  · intro hne
    unfold run_video_comparison
    rw [if_neg hne]
  · intro h0 hp
    unfold run_video_comparison
    rw [if_pos h0, hp]

/-- Witness for C7: the three behaviours at concrete process results. -/
theorem C7_runner_witness :
    run_video_comparison (fun _ => some JSON.null) ⟨0, "null", ""⟩ =
      RunOutcome.ok JSON.null ∧
    run_video_comparison (fun _ => some JSON.null) ⟨2, "", "boom"⟩ =
      RunOutcome.exited 1
        ["Error running ffmpeg-quality-metrics: CalledProcessError",
         "Command output: " ++ "boom"] ∧
    run_video_comparison (fun _ => none) ⟨0, "oops", ""⟩ =
      RunOutcome.exited 1 ["Error parsing output. Raw output: " ++ "oops"] :=
  ⟨(C7_runner (fun _ => some JSON.null) ⟨0, "null", ""⟩).1 JSON.null rfl rfl,
   (C7_runner (fun _ => some JSON.null) ⟨2, "", "boom"⟩).2.1 (by decide),
   (C7_runner (fun _ => none) ⟨0, "oops", ""⟩).2.2 rfl rfl⟩

/-- Evaluation of the existence loop on its two-path call site. -/
lemma existLoop_two (w : World) (p1 p2 : String) :
    existLoop w [p1, p2] =
      if w.pathExists p1 then
        (if w.pathExists p2
          then ([Event.existCheck p1, Event.existCheck p2], true)
          else ([Event.existCheck p1, Event.existCheck p2], false))
      else ([Event.existCheck p1], false) := by
  by_cases h1 : w.pathExists p1 <;> by_cases h2 : w.pathExists p2 <;>
    simp [existLoop, h1, h2]

/-- Source resolution never calls the metrics engine. -/
lemma resolveReference_no_engine (w : World) (a : Args) :
    ((resolveReference w a).1).filter Event.isEngine = [] := by
  rcases a with ⟨src, d, yo, ms⟩
  cases src <;> simp [resolveReference, download_youtube_video, Event.isEngine]

/-- With `--youtube`, resolution is one downloader call whose result follows
the downloader's behaviour. -/
lemma resolveReference_youtube (w : World) (a : Args) (url : String)
    (hsrc : a.source = Source.youtube url) :
    resolveReference w a =
      ([Event.downloadCall url
          (a.youtubeOutput.getD (w.tempDir ++ "/youtube_download.mp4"))],
       match w.download with
       | .succeeds =>
          Except.ok (a.youtubeOutput.getD (w.tempDir ++ "/youtube_download.mp4"))
       | .processError => Except.error 1
       | .notFound => Except.error 1) := by
  unfold resolveReference
  rw [hsrc]
  rfl

/-- A failed resolution ends the run with the resolver's exit code and only
the resolver's events. -/
lemma mainRun_eq_error (w : World) (a : Args) (evs : List Event) (c : Nat)
    (hres : resolveReference w a = (evs, Except.error c)) :
    mainRun w a = (evs, MainOutcome.exited c) := by
  unfold mainRun
  rw [hres]

/-- After a successful resolution the run continues with the existence loop
and, only if both paths exist, the engine call. -/
lemma mainRun_eq_resolved (w : World) (a : Args) (evs : List Event) (ref : String)
    (hres : resolveReference w a = (evs, Except.ok ref)) :
    mainRun w a =
      (match existLoop w [ref, a.distorted] with
       | (evs2, false) => (evs ++ evs2, MainOutcome.exited 1)
       | (evs2, true) =>
          match run_video_comparison w.parse w.engine with
          | .ok j => (evs ++ evs2 ++ [Event.engineCall ref a.distorted a.metrics],
                      MainOutcome.reported (display_results j))
          | .exited c _ =>
              (evs ++ evs2 ++ [Event.engineCall ref a.distorted a.metrics],
               MainOutcome.exited c)) := by
  unfold mainRun
  rw [hres]

/-- The three possible event traces after a successful resolution: stop at
the first check, stop at the second check, or reach the engine call. -/
lemma mainRun_resolved_cases (w : World) (a : Args) (evs : List Event) (ref : String)
    (hres : resolveReference w a = (evs, Except.ok ref)) :
    (mainRun w a).1 = evs ++ [Event.existCheck ref] ∨
    (mainRun w a).1 = evs ++ [Event.existCheck ref, Event.existCheck a.distorted] ∨
    (mainRun w a).1 = evs ++ [Event.existCheck ref, Event.existCheck a.distorted,
        Event.engineCall ref a.distorted a.metrics] := by
  rw [mainRun_eq_resolved w a evs ref hres, existLoop_two]
  by_cases h1 : w.pathExists ref
  · by_cases h2 : w.pathExists a.distorted
    · simp only [h1, h2, if_true]
      cases run_video_comparison w.parse w.engine <;> simp
    · simp [h1, h2]
  · simp [h1]

/-- C8: when either resolved input path is missing at validation time, the
process exits with code 1 and its event trace contains no metrics-engine
call. -/
theorem C8_missing_input (w : World) (a : Args) (evs : List Event) (ref : String)
    (hres : resolveReference w a = (evs, Except.ok ref))
    (hmiss : w.pathExists ref = false ∨ w.pathExists a.distorted = false) :
    (mainRun w a).2 = MainOutcome.exited 1 ∧
    (mainRun w a).1.filter Event.isEngine = [] := by
  have hevs : evs.filter Event.isEngine = [] := by
    have h := resolveReference_no_engine w a
    rw [hres] at h
    exact h
  rw [mainRun_eq_resolved w a evs ref hres]
  rcases hmiss with hm | hm
  · have hel : existLoop w [ref, a.distorted] = ([Event.existCheck ref], false) := by
      rw [existLoop_two]
      simp [hm]
    rw [hel]
    exact ⟨rfl, by simp [List.filter_append, hevs, Event.isEngine]⟩
  · by_cases h1 : w.pathExists ref
    · have hel : existLoop w [ref, a.distorted] =
          ([Event.existCheck ref, Event.existCheck a.distorted], false) := by
        rw [existLoop_two]
        simp [h1, hm]
      rw [hel]
      exact ⟨rfl, by simp [List.filter_append, hevs, Event.isEngine]⟩
    · have hel : existLoop w [ref, a.distorted] = ([Event.existCheck ref], false) := by
        rw [existLoop_two]
        simp [h1]
      rw [hel]
      exact ⟨rfl, by simp [List.filter_append, hevs, Event.isEngine]⟩

/-- Witness for C8: a world where no path exists. -/
theorem C8_missing_input_witness :
    (mainRun ⟨"/tmp", fun _ => false, DownloadBehavior.succeeds, ⟨0, "", ""⟩,
        fun _ => none⟩
      ⟨Source.localRef "ref.mp4", "dist.mp4", none, ["vmaf"]⟩).2 =
        MainOutcome.exited 1 ∧
    (mainRun ⟨"/tmp", fun _ => false, DownloadBehavior.succeeds, ⟨0, "", ""⟩,
        fun _ => none⟩
      ⟨Source.localRef "ref.mp4", "dist.mp4", none, ["vmaf"]⟩).1.filter
        Event.isEngine = [] :=
  C8_missing_input _ _ [] "ref.mp4" rfl (Or.inl rfl)

/-- C9: with `--youtube`, the downloader call is the very first external
event (hence it precedes every existence check), it is the only downloader
call of the run, and if the downloader fails the process exits with code 1
and no metrics-engine call ever occurs. -/
theorem C9_youtube_first (w : World) (a : Args) (url : String)
    (hsrc : a.source = Source.youtube url) :
    (∃ rest, (mainRun w a).1 =
        Event.downloadCall url
          (a.youtubeOutput.getD (w.tempDir ++ "/youtube_download.mp4")) :: rest ∧
        rest.filter Event.isDownload = []) ∧
    ((mainRun w a).1.filter Event.isDownload).length = 1 ∧
    (w.download ≠ DownloadBehavior.succeeds →
      (mainRun w a).2 = MainOutcome.exited 1 ∧
      (mainRun w a).1.filter Event.isEngine = []) := by
  cases hd : w.download
  case succeeds =>
    have hres : resolveReference w a =
        ([Event.downloadCall url
            (a.youtubeOutput.getD (w.tempDir ++ "/youtube_download.mp4"))],
         Except.ok (a.youtubeOutput.getD (w.tempDir ++ "/youtube_download.mp4"))) := by
      rw [resolveReference_youtube w a url hsrc, hd]
    rcases mainRun_resolved_cases w a _ _ hres with ht | ht | ht <;>
      rw [ht] <;>
      refine ⟨⟨_, rfl, by simp [Event.isDownload, List.filter]⟩,
        by simp [Event.isDownload, List.filter],
        fun hne => absurd rfl hne⟩
  case processError =>
    have hres : resolveReference w a =
        ([Event.downloadCall url
            (a.youtubeOutput.getD (w.tempDir ++ "/youtube_download.mp4"))],
         Except.error 1) := by
      rw [resolveReference_youtube w a url hsrc, hd]
    rw [mainRun_eq_error w a _ 1 hres]
    exact ⟨⟨[], rfl, rfl⟩, by simp [Event.isDownload, List.filter],
      fun _ => ⟨rfl, by simp [Event.isEngine, List.filter]⟩⟩
  case notFound =>
    have hres : resolveReference w a =
        ([Event.downloadCall url
            (a.youtubeOutput.getD (w.tempDir ++ "/youtube_download.mp4"))],
         Except.error 1) := by
      rw [resolveReference_youtube w a url hsrc, hd]
    rw [mainRun_eq_error w a _ 1 hres]
    exact ⟨⟨[], rfl, rfl⟩, by simp [Event.isDownload, List.filter],
      fun _ => ⟨rfl, by simp [Event.isEngine, List.filter]⟩⟩

/-- Witness for C9: a failing downloader in a concrete world. -/
theorem C9_youtube_first_witness :
    (∃ rest, (mainRun ⟨"/tmp", fun _ => true, DownloadBehavior.processError,
        ⟨0, "", ""⟩, fun _ => none⟩
        ⟨Source.youtube "https://yt/v", "dist.mp4", none, ["vmaf"]⟩).1 =
        Event.downloadCall "https://yt/v"
          ((none : Option String).getD ("/tmp" ++ "/youtube_download.mp4")) :: rest ∧
        rest.filter Event.isDownload = []) ∧
    ((mainRun ⟨"/tmp", fun _ => true, DownloadBehavior.processError,
        ⟨0, "", ""⟩, fun _ => none⟩
        ⟨Source.youtube "https://yt/v", "dist.mp4", none, ["vmaf"]⟩).1.filter
          Event.isDownload).length = 1 ∧
    (DownloadBehavior.processError ≠ DownloadBehavior.succeeds →
      (mainRun ⟨"/tmp", fun _ => true, DownloadBehavior.processError,
          ⟨0, "", ""⟩, fun _ => none⟩
        ⟨Source.youtube "https://yt/v", "dist.mp4", none, ["vmaf"]⟩).2 =
          MainOutcome.exited 1 ∧
      (mainRun ⟨"/tmp", fun _ => true, DownloadBehavior.processError,
          ⟨0, "", ""⟩, fun _ => none⟩
        ⟨Source.youtube "https://yt/v", "dist.mp4", none, ["vmaf"]⟩).1.filter
          Event.isEngine = []) :=
  C9_youtube_first _ _ "https://yt/v" rfl

/-- C10: with a local `--reference`, resolution is the identity with an
empty event trace — the run performs no downloader call, and any engine
call it makes uses the supplied reference path unchanged. -/
theorem C10_local_passthrough (w : World) (a : Args) (p : String)
    (hsrc : a.source = Source.localRef p) :
    resolveReference w a = ([], Except.ok p) ∧
    (mainRun w a).1.filter Event.isDownload = [] ∧
    ((mainRun w a).1.filter Event.isEngine = [] ∨
     (mainRun w a).1.filter Event.isEngine =
        [Event.engineCall p a.distorted a.metrics]) := by
  have hres : resolveReference w a = ([], Except.ok p) := by
    unfold resolveReference
    rw [hsrc]
  refine ⟨hres, ?_, ?_⟩ <;>
    rcases mainRun_resolved_cases w a [] p hres with ht | ht | ht <;>
    rw [ht] <;>
    simp [Event.isDownload, Event.isEngine, List.filter]

/-- Witness for C10: a concrete world where both files exist. -/
theorem C10_local_passthrough_witness :
    resolveReference ⟨"/tmp", fun _ => true, DownloadBehavior.succeeds,
        ⟨0, "null", ""⟩, fun _ => some JSON.null⟩
      ⟨Source.localRef "ref.mp4", "dist.mp4", none, ["vmaf"]⟩ =
      ([], Except.ok "ref.mp4") ∧
    (mainRun ⟨"/tmp", fun _ => true, DownloadBehavior.succeeds,
        ⟨0, "null", ""⟩, fun _ => some JSON.null⟩
      ⟨Source.localRef "ref.mp4", "dist.mp4", none, ["vmaf"]⟩).1.filter
        Event.isDownload = [] ∧
    ((mainRun ⟨"/tmp", fun _ => true, DownloadBehavior.succeeds,
        ⟨0, "null", ""⟩, fun _ => some JSON.null⟩
      ⟨Source.localRef "ref.mp4", "dist.mp4", none, ["vmaf"]⟩).1.filter
        Event.isEngine = [] ∨
     (mainRun ⟨"/tmp", fun _ => true, DownloadBehavior.succeeds,
        ⟨0, "null", ""⟩, fun _ => some JSON.null⟩
      ⟨Source.localRef "ref.mp4", "dist.mp4", none, ["vmaf"]⟩).1.filter
        Event.isEngine = [Event.engineCall "ref.mp4" "dist.mp4" ["vmaf"]]) :=
  C10_local_passthrough _ _ "ref.mp4" rfl
